import Mathlib

/-
Verification development for the "Community Load Profiles" microgrid pipeline
(package `microgrid_profiles`).  The Python sources are shallowly embedded:

- machine floats become `ℚ` (the pipeline only adds, multiplies and divides);
- pandas frames become association lists of named columns;
- the numpy generator becomes an explicit value threaded through the code,
  its raw word stream abstracted as a function `Nat → Nat`;
- fallible functions return `Except String` / `Option`.

Each embedded definition carries a comment naming the Python function it
translates (files `selection.py`, `transforms.py`, `pipeline.py`, `config.py`,
`weather.py`, `io.py`).
-/

namespace Microgrid

/-- Explicit random-generator value standing for `numpy.random.Generator`.
The raw word stream is a pure function of the seed material; `pos` is the
number of words consumed so far.  Threading `Rng` values mirrors how the
pipeline passes `rng` explicitly into the selection and multiplier draws. -/
structure Rng where
  stream : Nat → Nat
  pos : Nat

/-- Embeds `rng.integers(0, n, size=k)`: `k` draws, each reduced into `[0, n)`.
Returns the drawn list together with the advanced generator. -/
def Rng.integers (r : Rng) (n k : Nat) : List Nat × Rng :=
  (((List.range k).map fun j => r.stream (r.pos + j) % n), ⟨r.stream, r.pos + k⟩)

/-- Stand-in for the standard-normal transform numpy applies to raw generator
words inside `Generator.normal`.  Only the affine structure
`loc + scale * z` of `normal(loc, scale)` matters to the claims, not the
numeric law of `z`, so the transform is an arbitrary fixed function. -/
def stdNormalDraw (w : Nat) : ℚ :=
  ((w % 13 : Nat) : ℚ) - 6

/-- Embeds `rng.normal(loc, scale, size=n)`: `n` draws `loc + scale * z_j`
from consecutive generator words, returning the advanced generator. -/
def Rng.normal (r : Rng) (loc scale : ℚ) (n : Nat) : List ℚ × Rng :=
  (((List.range n).map fun j => loc + scale * stdNormalDraw (r.stream (r.pos + j))),
   ⟨r.stream, r.pos + n⟩)

/-- Embeds `numpy.random.default_rng(seed)`.  The concrete mixing function is a
stand-in for PCG64 seeding; what the development relies on is only that the
stream is a deterministic function of the seed. -/
def default_rng (seed : Nat) : Rng :=
  ⟨fun j => (seed + 1) * (2 * j + 1), 0⟩

/-- Embeds Python's built-in `round` on a real value: round half to even
(banker's rounding), as used in `selection.py` for the per-subtype counts. -/
def pyRound (q : ℚ) : ℤ :=
  let f : ℤ := ⌊q⌋
  let r : ℚ := q - (f : ℚ)
  if r < 1/2 then f
  else if 1/2 < r then f + 1
  else if f % 2 = 0 then f else f + 1

/-- Column-name configuration (`config.py`, `ColumnConfig`): only the fields
the verified code paths read. -/
structure ColumnCfg where
  building_id_resstock : String
  building_id_comstock : String
  resstock_building_type : String
  resstock_units_mf : String
  resstock_sqft : String
  resstock_electricity_kwh : String
  comstock_building_type : String
  comstock_sqft : String
  comstock_electricity_kwh : String
  electricity_kwh : String

/-- Neighborhood selection configuration (`config.py`, `NeighborhoodConfig`).
`multifamily_buildings_percentages` is the dict modelled as an association
list; `single_family` options are not read by the verified paths. -/
structure NeighborhoodCfg where
  total_buildings : ℤ
  multifamily_buildings_percent_of_total : ℚ
  single_family_buildings_percent_of_total : ℚ
  multifamily_building_names : List String
  multifamily_buildings_percentages : List (String × ℚ)

/-- Scenario configuration (`config.py`, `ScenarioConfig`): the fields the
verified code paths read. -/
structure ScenarioCfg where
  seed : Nat
  sample_runs : Nat
  include_public : Bool
  adjustment_multiplier_off : Bool
  columns : ColumnCfg
  multifamily_filter : List String
  neighborhood : NeighborhoodCfg

/-- One ResStock characteristics row, projected to the two fields the
selection reads: the building identifier column and the building-type
column. -/
structure RRow where
  id : Nat
  btype : String

/-- One ComStock characteristics row, projected likewise. -/
structure CRow where
  id : Nat
  btype : String

/-- Embeds `_sample(rng, items, k)` from `selection.py`: `k` draws with
replacement via `rng.integers(0, len(items), size=k)`; empty pool or
non-positive `k` yields the empty list without touching the generator. -/
def sample (rng : Rng) (items : List Nat) (k : ℤ) : List Nat × Rng :=
  if k ≤ 0 ∨ items = [] then ([], rng)
  else
    let p := rng.integers items.length k.toNat
    (p.1.map fun i => items.getD i 0, p.2)

/-- Candidate pool for one residential subtype: embeds
`chars.loc[chars[c.resstock_building_type] == name, c.building_id_resstock].tolist()`. -/
def resCandidates (chars : List RRow) (name : String) : List Nat :=
  (chars.filter fun row => row.btype == name).map fun row => row.id

/-- Candidate pool for one commercial building type: embeds
`chars.loc[chars[c.comstock_building_type] == btype, c.building_id_comstock].tolist()`. -/
def comCandidates (chars : List CRow) (name : String) : List Nat :=
  (chars.filter fun row => row.btype == name).map fun row => row.id

/-- Embeds `mf_count = int(round(total * n.multifamily_buildings_percent_of_total))`. -/
def mfCount (n : NeighborhoodCfg) : ℤ :=
  pyRound ((n.total_buildings : ℚ) * n.multifamily_buildings_percent_of_total)

/-- Per-subtype requested count: embeds
`k = int(round(mf_count * float(n.multifamily_buildings_percentages.get(name, 0.0))))`. -/
def subtypeCount (n : NeighborhoodCfg) (name : String) : ℤ :=
  pyRound ((mfCount n : ℚ) * ((n.multifamily_buildings_percentages.lookup name).getD 0))

/-- Embeds the selection loop of `construct_neighborhood_residential`
(`selection.py`): fold over the configured multifamily subtype names,
sampling each subtype's pool with replacement and threading the generator.
The `counts_by_type` reporting field of the Python dataclass is not
modelled; the claims concern only the identifier list. -/
def construct_neighborhood_residential (cfg : ScenarioCfg) (chars : List RRow)
    (rng : Rng) : List Nat × Rng :=
  cfg.neighborhood.multifamily_building_names.foldl
    (fun acc name =>
      let p := sample acc.2 (resCandidates chars name) (subtypeCount cfg.neighborhood name)
      (acc.1 ++ p.1, p.2))
    ([], rng)

/-- The fixed commercial plan of `construct_neighborhood_commercial`,
optionally extended with public building types. -/
def commercialPlan (includePublic : Bool) : List (String × ℤ) :=
  [("LargeOffice", 5), ("MediumOffice", 3), ("RetailStandalone", 6),
   ("RetailStripmall", 4), ("Warehouse", 7)] ++
  (if includePublic then
    [("SmallHotel", 1), ("Hospital", 1), ("PrimarySchool", 1), ("SecondarySchool", 1)]
  else [])

/-- Embeds the selection loop of `construct_neighborhood_commercial`
(`selection.py`), again dropping only the `counts_by_type` reporting field. -/
def construct_neighborhood_commercial (cfg : ScenarioCfg) (chars : List CRow)
    (rng : Rng) : List Nat × Rng :=
  (commercialPlan cfg.include_public).foldl
    (fun acc plan =>
      let p := sample acc.2 (comCandidates chars plan.1) plan.2
      (acc.1 ++ p.1, p.2))
    ([], rng)

/-- Expected length of one subtype's sampled block (used to state the length
law of the selection loop): `k.toNat` from a non-empty pool, else zero. -/
def sampleLen (items : List Nat) (k : ℤ) : Nat :=
  if k ≤ 0 ∨ items = [] then 0 else k.toNat

/-- The selection phase of `run_pipeline` (`pipeline.py`): seed the generator
once with `default_rng(cfg.seed)`, draw the per-run multipliers (which
consumes generator words exactly when the multiplier is enabled), then for
each run sample residential and commercial identifiers, threading the one
generator through every draw.  Returns the per-run identifier sequences. -/
def pipelineSelections (cfg : ScenarioCfg) (resChars : List RRow)
    (comChars : List CRow) (seed : Nat) : List (List Nat × List Nat) :=
  let rng0 := default_rng seed
  let rng1 :=
    if cfg.adjustment_multiplier_off then rng0
    else (rng0.normal 1 (1/5) cfg.sample_runs).2
  ((List.range cfg.sample_runs).foldl
    (fun (acc : List (List Nat × List Nat) × Rng) _ =>
      let pr := construct_neighborhood_residential cfg resChars acc.2
      let pc := construct_neighborhood_commercial cfg comChars pr.2
      (acc.1 ++ [(pr.1, pc.1)], pc.2))
    ([], rng1)).1

/-- A pandas column: either string-valued or numeric-valued.  The pipeline's
characteristics frames mix both kinds. -/
inductive Column where
  | strs : List String → Column
  | nums : List ℚ → Column
deriving DecidableEq

/-- A pandas DataFrame: named columns in insertion order.  Row indices are
positional (the pipeline's frames use aligned default indices). -/
structure Frame where
  cols : List (String × Column)
deriving DecidableEq

/-- Embeds `name in df.columns`. -/
def Frame.hasCol (df : Frame) (name : String) : Bool :=
  df.cols.any fun p => p.1 == name

/-- Embeds `df[name]` (first matching column, as in pandas label lookup). -/
def Frame.findCol (df : Frame) (name : String) : Option Column :=
  df.cols.lookup name

/-- Numeric view of `df[name]`: the value list when the column exists and is
numeric. -/
def Frame.numsOf (df : Frame) (name : String) : Option (List ℚ) :=
  match df.findCol name with
  | some (Column.nums l) => some l
  | _ => none

/-- String view of `df[name]`. -/
def Frame.strsOf (df : Frame) (name : String) : Option (List String) :=
  match df.findCol name with
  | some (Column.strs l) => some l
  | _ => none

/-- The numeric cell at row `i` of column `name`, when present. -/
def Frame.numAt (df : Frame) (name : String) (i : Nat) : Option ℚ :=
  (df.numsOf name).bind fun l => l.get? i

/-- Replace the first column named `name` (append when absent): embeds pandas
column assignment `df[name] = vals`. -/
def setColAux : List (String × Column) → String → Column → List (String × Column)
  | [], n, c => [(n, c)]
  | (m, d) :: rest, n, c =>
    if m == n then (n, c) :: rest else (m, d) :: setColAux rest n c

/-- Frame-level column assignment. -/
def Frame.setCol (df : Frame) (name : String) (c : Column) : Frame :=
  ⟨setColAux df.cols name c⟩

/-- Three-list pointwise zip used to express the row-aligned `.loc` updates. -/
def zip3With (f : Bool → ℚ → ℚ → ℚ) : List Bool → List ℚ → List ℚ → List ℚ
  | m :: ms, a :: as, b :: bs => f m a b :: zip3With f ms as bs
  | _, _, _ => []

/-- Embeds the mask
`out[c.resstock_building_type].isin(set(cfg.multifamily_filter))` when the
building-type column is present (`None` mirrors the column being absent).
`isin` over a string set on a numeric column is all-`False`. -/
def mfMask (cfg : ScenarioCfg) (df : Frame) : Option (List Bool) :=
  match df.findCol cfg.columns.resstock_building_type with
  | some (Column.strs bs) => some (bs.map fun b => cfg.multifamily_filter.contains b)
  | some (Column.nums ns) => some (ns.map fun _ => false)
  | none => none

/-- Embeds `apply_multifamily_adjustments(cfg, df)` from `transforms.py`:
return a copy of `df`; when the building-type column is absent return it
unchanged; otherwise scale the energy column by the unit count on masked
rows (when both columns are present) and add the adjusted square-footage
column `in.sqft_adjust` (original square footage off-mask, `sqft * units`
on-mask) when both of those columns are present. -/
def apply_multifamily_adjustments (cfg : ScenarioCfg) (df : Frame) : Frame :=
  let c := cfg.columns
  match mfMask cfg df with
  | none => df
  | some mask =>
    let out1 :=
      match df.numsOf c.electricity_kwh, df.numsOf c.resstock_units_mf with
      | some es, some us =>
        df.setCol c.electricity_kwh
          (Column.nums (zip3With (fun m e u => if m then e * u else e) mask es us))
      | _, _ => df
    match out1.numsOf c.resstock_sqft, out1.numsOf c.resstock_units_mf with
    | some ss, some us =>
      out1.setCol "in.sqft_adjust"
        (Column.nums (zip3With (fun m s u => if m then s * u else s) mask ss us))
    | _, _ => out1

/-- Embeds the per-run multiplier draw of `run_pipeline` (`pipeline.py`):
`np.ones(cfg.sample_runs)` when the multiplier is disabled, otherwise
`rng.normal(1.0, 0.2, size=cfg.sample_runs)` (one draw per run, consuming
the generator). -/
def multipliers (cfg : ScenarioCfg) (rng : Rng) : List ℚ × Rng :=
  if cfg.adjustment_multiplier_off then (List.replicate cfg.sample_runs 1, rng)
  else rng.normal 1 (1/5) cfg.sample_runs

/-- Embeds the residential multiplier application in `run_pipeline`:
`if c.resstock_electricity_kwh in res_m.columns:
res_m[col] = res_m[col] * float(multipliers[i])`. -/
def multiplierStep (cfg : ScenarioCfg) (df : Frame) (m : ℚ) : Frame :=
  match df.numsOf cfg.columns.resstock_electricity_kwh with
  | some es =>
    df.setCol cfg.columns.resstock_electricity_kwh (Column.nums (es.map fun e => e * m))
  | none => df

/-- The per-run adjustment phase of `run_pipeline` for one run, given the
run's multiplier `m`: the residential merged frame goes through the
multifamily adjustment and then the multiplier; the commercial merged frame
goes through neither. -/
def perRunAdjust (cfg : ScenarioCfg) (res_m com_m : Frame) (m : ℚ) : Frame × Frame :=
  (multiplierStep cfg (apply_multifamily_adjustments cfg res_m) m, com_m)

/-- Character-level embedding of `str.startswith(pat)` (the library
`String.startsWith` is not kernel-reducible, so the check is phrased on the
underlying character lists). -/
def strStarts (pat s : String) : Bool :=
  pat.data.isPrefixOf s.data

/-- The compiled cross-run table built by `add_run_cols`: a timestamp index of
length `n` and one value list per column.  Cells are `Option ℚ` so that
pandas missing values (`NaN`) are representable. -/
structure Compiled where
  n : Nat
  cols : List (String × List (Option ℚ))

/-- Row mean with pandas `skipna=True` semantics: the mean of the present
values, or missing when every value is missing. -/
def rowMean (vals : List (Option ℚ)) : Option ℚ :=
  let xs := vals.filterMap id
  if xs = [] then none else some (xs.sum / (xs.length : ℚ))

/-- Value lists of the columns whose name starts with `Residential`
(embeds `[c for c in compiled.columns if c.startswith("Residential")]`). -/
def resColumns (t : Compiled) : List (List (Option ℚ)) :=
  ((t.cols.filter fun p => strStarts "Residential" p.1).map fun p => p.2)

/-- Value lists of the columns whose name starts with `Commercial`. -/
def comColumns (t : Compiled) : List (List (Option ℚ)) :=
  ((t.cols.filter fun p => strStarts "Commercial" p.1).map fun p => p.2)

/-- Row-wise mean over a column group: embeds `compiled[cols].mean(axis=1)`
when the group is non-empty and `pd.Series(index=compiled.index, dtype=float)`
(an all-missing series over the same index) when it is empty. -/
def groupMean (n : Nat) (cols : List (List (Option ℚ))) : List (Option ℚ) :=
  if cols = [] then List.replicate n none
  else (List.range n).map fun i => rowMean (cols.map fun col => col.getD i none)

/-- Pointwise `Series.add` with `fill_value=0.0`: a missing side is filled
with zero unless both sides are missing, in which case the result stays
missing. -/
def addFill : Option ℚ → Option ℚ → Option ℚ
  | none, none => none
  | a, b => some (a.getD 0 + b.getD 0)

/-- Embeds `avg_from_compiled(compiled)` from `transforms.py`: mean across the
`Residential*` columns, mean across the `Commercial*` columns, and
`total = res.add(com, fill_value=0.0)`. -/
def avg_from_compiled (t : Compiled) :
    List (Option ℚ) × List (Option ℚ) × List (Option ℚ) :=
  let res := groupMean t.n (resColumns t)
  let com := groupMean t.n (comColumns t)
  (res, com, List.zipWith addFill res com)

/-- Embeds `validate_percentages(neighborhood, tol=1e-6)` from `config.py`:
first check that the multifamily subtype fractions sum to 1 within `tol`,
then that the multifamily and single-family shares sum to 1 within `tol`;
each violation raises `ValueError`, a pass returns unit. -/
def validate_percentages (n : NeighborhoodCfg) (tol : ℚ := 1/1000000) :
    Except String Unit :=
  if |(n.multifamily_buildings_percentages.map fun p => p.2).sum - 1| > tol then
    Except.error "multifamily_buildings_percentages must sum to 1.0."
  else if |n.multifamily_buildings_percent_of_total +
      n.single_family_buildings_percent_of_total - 1| > tol then
    Except.error "multifamily + single_family percent must sum to 1.0."
  else Except.ok ()

/-- A raw weather CSV as loaded by `pd.read_csv`: named columns of unparsed
string cells. -/
structure WFrame where
  cols : List (String × List String)

/-- Embeds `name in df.columns` for a raw weather table. -/
def wHasCol (t : WFrame) (name : String) : Bool :=
  t.cols.any fun p => p.1 == name

/-- Embeds `df[name]` for a raw weather table (empty when absent). -/
def wGetCol (t : WFrame) (name : String) : List String :=
  ((t.cols.find? fun p => p.1 == name).map fun p => p.2).getD []

/-- Embeds `_first(df, cands)` from `weather.py`: the first candidate column
name present in the table. -/
def firstCand (t : WFrame) (cands : List String) : Option String :=
  cands.find? fun c => wHasCol t c

/-- The ordered datetime candidate column names of `read_weather_csv_auto`. -/
def dtCandidates : List String :=
  ["DATE", "Date", "datetime", "timestamp", "time"]

/-- The ordered temperature candidate column names of `read_weather_csv_auto`. -/
def tempCandidates : List String :=
  ["HourlyDryBulbTemperature", "TEMP", "Temp", "temperature", "Temperature",
   "TAVG", "DryBulbCelsius", "DryBulbFahrenheit"]

/-- Decimal digit value of a character, when it is a digit. -/
def digitVal (c : Char) : Option Nat :=
  if 48 ≤ c.toNat ∧ c.toNat ≤ 57 then some (c.toNat - 48) else none

/-- Parse a nonempty all-digit character list as a decimal natural. -/
def parseNatStr (s : String) : Option Nat :=
  match s.data with
  | [] => none
  | cs => cs.foldl (fun acc c => acc.bind fun n => (digitVal c).map fun d => 10 * n + d)
      (some 0)

/-- Parse an optionally `-`-signed decimal integer literal. -/
def parseIntStr (s : String) : Option ℤ :=
  match s.data with
  | '-' :: cs => (parseNatStr ⟨cs⟩).map fun n => -(n : ℤ)
  | _ => (parseNatStr s).map fun n => (n : ℤ)

/-- Modelled stand-in for `pd.to_datetime(x, errors="coerce")` on one cell:
timestamps are abstracted to hour numbers, parsed from a nonnegative
decimal token; an unparseable cell coerces to missing and is dropped. -/
def pdToDatetime (s : String) : Option Nat :=
  parseNatStr s

/-- Modelled stand-in for `pd.to_numeric(x, errors="coerce")` on one cell:
parses a decimal integer token to a rational; unparseable coerces to
missing and is dropped. -/
def pdToNumeric (s : String) : Option ℚ :=
  (parseIntStr s).map fun z => (z : ℚ)

/-- ASCII-level embedding of `str.upper()` on one character. -/
def asciiUpper (c : Char) : Char :=
  if 97 ≤ c.toNat ∧ c.toNat ≤ 122 then Char.ofNat (c.toNat - 32) else c

/-- Embeds `str.upper()` (ASCII, character-list level). -/
def pyUpper (s : String) : String :=
  ⟨s.data.map asciiUpper⟩

/-- Whitespace test used by `str.strip()`. -/
def isSpaceChar (c : Char) : Bool :=
  c == ' ' || c == '\t' || c == '\n' || c == '\r'

/-- Embeds `str.strip()`: drop leading and trailing whitespace. -/
def pyStrip (s : String) : String :=
  ⟨((s.data.dropWhile isSpaceChar).reverse.dropWhile isSpaceChar).reverse⟩

/-- Embeds the column removal performed by `df.set_index(dt_col)`. -/
def dropColW (t : WFrame) (name : String) : WFrame :=
  ⟨t.cols.filter fun p => p.1 ≠ name⟩

/-- The table in which `read_weather_csv_auto` searches for a temperature
column: after `set_index(dt_col)` the detected datetime column is no longer
among the columns; with no datetime column detected the table is unchanged. -/
def weatherSearchFrame (t : WFrame) : WFrame :=
  match firstCand t dtCandidates with
  | some d => dropColW t d
  | none => t

/-- Insert into a sorted list, keeping earlier equal elements first. -/
def insertSorted {α : Type} (le : α → α → Bool) (x : α) : List α → List α
  | [] => [x]
  | y :: ys => if le x y then x :: y :: ys else y :: insertSorted le x ys

/-- Stable ascending sort by insertion (structurally recursive embedding of
the library sorts used by `median` and `sort_index`). -/
def sortBy {α : Type} (le : α → α → Bool) (l : List α) : List α :=
  l.foldr (insertSorted le) []

/-- Median with pandas interpolation: middle element of the sorted values for
odd length, mean of the two middle elements for even length, missing for an
empty series. -/
def medianOf (vals : List ℚ) : Option ℚ :=
  if (sortBy (fun a b => a ≤ b) vals).length = 0 then none
  else if (sortBy (fun a b => a ≤ b) vals).length % 2 = 1 then
    some ((sortBy (fun a b => a ≤ b) vals).getD
      ((sortBy (fun a b => a ≤ b) vals).length / 2) 0)
  else
    some (((sortBy (fun a b => a ≤ b) vals).getD
        ((sortBy (fun a b => a ≤ b) vals).length / 2 - 1) 0
      + (sortBy (fun a b => a ≤ b) vals).getD
        ((sortBy (fun a b => a ≤ b) vals).length / 2) 0) / 2)

/-- Fahrenheit-to-Celsius conversion `(temp - 32.0) * (5.0 / 9.0)`. -/
def fToC (v : ℚ) : ℚ := (v - 32) * (5/9)

/-- Celsius-to-Fahrenheit conversion `temp * (9.0 / 5.0) + 32.0`. -/
def cToF (v : ℚ) : ℚ := v * (9/5) + 32

/-- Embeds the unit heuristic of `read_weather_csv_auto` on the parsed series
(`units` already normalized by `.upper().strip()`): target Celsius with
median above 45 converts from Fahrenheit, target Fahrenheit with median
below 35 converts from Celsius, other unit tokens raise `ValueError`.
Median of an empty series is missing and compares false, as NaN does. -/
def applyUnitHeuristic (units : String) (s : List (Nat × ℚ)) :
    Except String (List (Nat × ℚ)) :=
  if units = "C" then
    match medianOf (s.map fun p => p.2) with
    | some m => if m > 45 then Except.ok (s.map fun p => (p.1, fToC p.2)) else Except.ok s
    | none => Except.ok s
  else if units = "F" then
    match medianOf (s.map fun p => p.2) with
    | some m => if m < 35 then Except.ok (s.map fun p => (p.1, cToF p.2)) else Except.ok s
    | none => Except.ok s
  else Except.error "preferred_units must be C or F"

/-- Embeds `.resample("h").mean(numeric_only=True)` on the keyed series: one
row per hour from the earliest to the latest key, the mean of that hour's
values, missing for empty hours; the empty series resamples to empty. -/
def hourlyMean (s : List (Nat × ℚ)) : List (Nat × Option ℚ) :=
  match s with
  | [] => []
  | q :: _ =>
    let keys := s.map fun p => p.1
    let lo := keys.foldl min q.1
    let hi := keys.foldl max q.1
    (List.range (hi + 1 - lo)).map fun j =>
      let k := lo + j
      let vs := (s.filter fun p => p.1 == k).map fun p => p.2
      (k, if vs = [] then none else some (vs.sum / (vs.length : ℚ)))

/-- Normalized hourly weather output (`WeatherSeries` of `weather.py`): the
hourly `outdoor_air_temperature` column, plus the `weather_source` label
column when a label was supplied. -/
structure WSeries where
  temps : List (Nat × Option ℚ)
  source : Option String

/-- Boolean success test for an `Except` result. -/
def exceptOk {α : Type} (e : Except String α) : Bool :=
  match e with
  | Except.ok _ => true
  | Except.error _ => false

/-- Embeds `read_weather_csv_auto(path, preferred_units, source_label)` from
`weather.py` past the file-existence check, on the loaded table: detect a
datetime column (falling back to the positional index when none of the
candidates is present), drop unparseable datetimes, sort chronologically,
detect a temperature column or fail, parse it numerically dropping
unparseable cells, normalize the unit token with `.upper().strip()`, apply
the unit heuristic (failing on an invalid token), resample to hourly mean
and attach the optional source label. -/
def read_weather_csv_auto (t : WFrame) (preferred_units : String)
    (source_label : Option String) : Except String WSeries :=
  let nrows := (t.cols.head?.map fun p => p.2.length).getD 0
  let rows : List (Nat × Nat) :=
    match firstCand t dtCandidates with
    | some d =>
      let parsed := (wGetCol t d).map pdToDatetime
      sortBy (fun a b => a.1 ≤ b.1)
        ((List.range nrows).filterMap fun i =>
          (parsed.getD i none).map fun ts => (ts, i))
    | none => (List.range nrows).map fun i => (i, i)
  match firstCand (weatherSearchFrame t) tempCandidates with
  | none => Except.error "No temperature column found in weather CSV."
  | some tc =>
    let tvals := wGetCol t tc
    let s : List (Nat × ℚ) :=
      rows.filterMap fun p => (pdToNumeric (tvals.getD p.2 "")).map fun q => (p.1, q)
    (applyUnitHeuristic (pyStrip (pyUpper preferred_units)) s).map
      fun s2 => ⟨hourlyMean s2, source_label⟩

/-- First-occurrence de-duplication: embeds
`list(dict.fromkeys(path_list))` from `io.py`. -/
def dedupFirst : List Nat → List Nat
  | [] => []
  | p :: rest => p :: dedupFirst (rest.filter fun q => q ≠ p)
termination_by l => l.length
decreasing_by
  simp only [List.length_cons]
  exact Nat.lt_succ_of_le (List.length_filter_le _ rest)

/-- Embeds `read_many_building_parquets(paths)` from `io.py` over an abstract
file system `fs` (a path either holds a table of rows or is missing, in
which case `read_building_parquet` raises): read every path in caller
order and concatenate; the empty path list yields the empty table. -/
def read_many_building_parquets {α : Type} (fs : Nat → Option (List α))
    (paths : List Nat) : Option (List α) :=
  (paths.mapM fs).map List.flatten

/-- Dictionary lookup in the worker cache keyed by source path. -/
def lookupTable {α : Type} (cache : List (Nat × List α)) (p : Nat) :
    Option (List α) :=
  (cache.find? fun q => q.1 == p).map fun q => q.2

/-- Embeds `read_many_building_parquets_cached(paths, ...)` from `io.py`:
empty input short-circuits to the empty table; otherwise the unique paths
(first-occurrence order) are each read once into a cache keyed by path
(worker completion order only populates a dict, so it is modelled
sequentially), and the result list is reassembled from the cache in the
caller's requested order, then concatenated. -/
def read_many_building_parquets_cached {α : Type} (fs : Nat → Option (List α))
    (paths : List Nat) : Option (List α) :=
  if paths = [] then some []
  else
    match (dedupFirst paths).mapM (fun p => (fs p).map fun t => (p, t)) with
    | none => none
    | some cache => (paths.mapM fun p => lookupTable cache p).map List.flatten

/-- Lookup in a heap of frames (missing slots read as the empty frame). -/
def heapGet (h : List Frame) (r : Nat) : Frame :=
  h.getD r ⟨[]⟩

/-- State-level embedding of `apply_multifamily_adjustments`: frames live in a
heap addressed by references, `out = df.copy()` allocates a fresh slot, and
each `.loc`/column assignment mutates that slot in place, exactly as the
Python statements do.  Returns the heap and the reference to `out`. -/
def apply_multifamily_adjustments_st (cfg : ScenarioCfg) (h : List Frame)
    (r : Nat) : List Frame × Nat :=
  let c := cfg.columns
  let df := heapGet h r
  let rOut := h.length
  let h1 := h ++ [df]
  match mfMask cfg df with
  | none => (h1, rOut)
  | some mask =>
    let h2 :=
      match (heapGet h1 rOut).numsOf c.electricity_kwh,
            (heapGet h1 rOut).numsOf c.resstock_units_mf with
      | some es, some us =>
        h1.set rOut ((heapGet h1 rOut).setCol c.electricity_kwh
          (Column.nums (zip3With (fun m e u => if m then e * u else e) mask es us)))
      | _, _ => h1
    let h3 :=
      match (heapGet h2 rOut).numsOf c.resstock_sqft,
            (heapGet h2 rOut).numsOf c.resstock_units_mf with
      | some ss, some us =>
        h2.set rOut ((heapGet h2 rOut).setCol "in.sqft_adjust"
          (Column.nums (zip3With (fun m s u => if m then s * u else s) mask ss us)))
      | _, _ => h2
    (h3, rOut)

lemma length_groupMean (n : Nat) (cols : List (List (Option ℚ))) :
    (groupMean n cols).length = n := by
  unfold groupMean
  split <;> simp

lemma getD_groupMean (n : Nat) (cols : List (List (Option ℚ))) (i : Nat)
    (hi : i < n) (hc : cols ≠ []) :
    (groupMean n cols).getD i none = rowMean (cols.map fun col => col.getD i none) := by
  unfold groupMean
  rw [if_neg hc, List.getD_eq_getElem?_getD, List.getElem?_map, List.getElem?_range hi]
  rfl

lemma getD_addFill (a b : Option ℚ) : (addFill a b).getD 0 = a.getD 0 + b.getD 0 := by
  cases a <;> cases b <;> simp [addFill]

lemma filterMap_pair : List.filterMap id [some (2 : ℚ), some 4] = [2, 4] := rfl

lemma rowMean_pair : rowMean [some (2 : ℚ), some 4] = some 3 := by
  simp only [rowMean, filterMap_pair]
  norm_num [List.sum_cons, List.sum_nil]
  intro h
  cases h

/-- C6: validation succeeds exactly when the multifamily subtype fractions sum
to 1.0 within 1e-6 and the multifamily plus single-family shares sum to 1.0
within 1e-6; a deviation beyond 1e-6 in either sum raises a configuration
error. -/
theorem C6_validate_percentages_ok_iff (n : NeighborhoodCfg) :
    validate_percentages n = Except.ok () ↔
      (|(n.multifamily_buildings_percentages.map fun p => p.2).sum - 1| ≤ 1/1000000 ∧
       |n.multifamily_buildings_percent_of_total +
         n.single_family_buildings_percent_of_total - 1| ≤ 1/1000000) := by
  unfold validate_percentages
  split_ifs with h1 h2
  · constructor
    · intro h
      exact absurd h (by simp)
    · rintro ⟨ha, _⟩
      exact absurd h1 (not_lt.mpr ha)
  · constructor
    · intro h
      exact absurd h (by simp)
    · rintro ⟨_, hb⟩
      exact absurd h2 (not_lt.mpr hb)
  · exact ⟨fun _ => ⟨not_lt.mp h1, not_lt.mp h2⟩, fun _ => rfl⟩

/-- C1: both averaged series and the total have the index length; a group with
zero columns yields an all-missing series of that length; with columns
present, each row of the residential (resp. commercial) series is the
row-wise mean of that group's cells; at every row the total equals
residential plus commercial with missing treated as zero; and on a
compiled table of two runs whose residential columns are constant 2.0 and
4.0 the residential average series is constant 3.0. -/
theorem C1_avg_from_compiled_spec (t : Compiled) :
    ((avg_from_compiled t).1.length = t.n ∧
     (avg_from_compiled t).2.1.length = t.n ∧
     (avg_from_compiled t).2.2.length = t.n) ∧
    (resColumns t = [] → (avg_from_compiled t).1 = List.replicate t.n none) ∧
    (comColumns t = [] → (avg_from_compiled t).2.1 = List.replicate t.n none) ∧
    (∀ i, i < t.n → resColumns t ≠ [] →
      (avg_from_compiled t).1.getD i none
        = rowMean ((resColumns t).map fun col => col.getD i none)) ∧
    (∀ i, i < t.n → comColumns t ≠ [] →
      (avg_from_compiled t).2.1.getD i none
        = rowMean ((comColumns t).map fun col => col.getD i none)) ∧
    (∀ i, i < t.n →
      ((avg_from_compiled t).2.2.getD i none).getD 0
        = ((avg_from_compiled t).1.getD i none).getD 0
          + ((avg_from_compiled t).2.1.getD i none).getD 0) ∧
    (∀ n c0 c1,
      (avg_from_compiled
        ⟨n, [("Residential0", List.replicate n (some 2)),
             ("Commercial0", c0),
             ("Residential1", List.replicate n (some 4)),
             ("Commercial1", c1)]⟩).1 = List.replicate n (some 3)) := by
  refine ⟨⟨?_, ?_, ?_⟩, ?_, ?_, ?_, ?_, ?_, ?_⟩
  · simpa [avg_from_compiled] using length_groupMean t.n (resColumns t)
  · simpa [avg_from_compiled] using length_groupMean t.n (comColumns t)
  · simp [avg_from_compiled, List.length_zipWith, length_groupMean]
  · intro h
    simp [avg_from_compiled, groupMean, h]
  · intro h
    simp [avg_from_compiled, groupMean, h]
  · intro i hi hne
    simpa [avg_from_compiled] using getD_groupMean t.n (resColumns t) i hi hne
  · intro i hi hne
    simpa [avg_from_compiled] using getD_groupMean t.n (comColumns t) i hi hne
  · intro i hi
    have hlen1 : i < (groupMean t.n (resColumns t)).length := by
      rw [length_groupMean]; exact hi
    have hlen2 : i < (groupMean t.n (comColumns t)).length := by
      rw [length_groupMean]; exact hi
    have hz : (List.zipWith addFill (groupMean t.n (resColumns t))
        (groupMean t.n (comColumns t))).getD i none
        = addFill ((groupMean t.n (resColumns t)).getD i none)
            ((groupMean t.n (comColumns t)).getD i none) := by
      rw [List.getD_eq_getElem?_getD, List.getElem?_zipWith,
        List.getElem?_eq_getElem hlen1, List.getElem?_eq_getElem hlen2]
      simp [List.getD_eq_getElem?_getD, List.getElem?_eq_getElem hlen1,
        List.getElem?_eq_getElem hlen2]
    simp only [avg_from_compiled] at *
    rw [hz, getD_addFill]
  · intro n c0 c1
    have e1 : strStarts "Residential" "Residential0" = true := by decide
    have e2 : strStarts "Residential" "Commercial0" = false := by decide
    have e3 : strStarts "Residential" "Residential1" = true := by decide
    have e4 : strStarts "Residential" "Commercial1" = false := by decide
    have hres : resColumns
        ⟨n, [("Residential0", List.replicate n (some 2)),
             ("Commercial0", c0),
             ("Residential1", List.replicate n (some 4)),
             ("Commercial1", c1)]⟩
        = [List.replicate n (some 2), List.replicate n (some 4)] := by
      simp [resColumns, List.filter, e1, e2, e3, e4]
    simp only [avg_from_compiled]
    rw [hres]
    unfold groupMean
    rw [if_neg (by simp)]
    have hcell : ∀ i ∈ List.range n,
        rowMean ([List.replicate n (some (2:ℚ)), List.replicate n (some 4)].map
          fun col => col.getD i none) = some 3 := by
      intro i hi
      rw [List.mem_range] at hi
      have g2 : (List.replicate n (some (2:ℚ))).getD i none = some 2 := by
        rw [List.getD_eq_getElem?_getD, List.getElem?_replicate, if_pos hi]
        rfl
      have g4 : (List.replicate n (some (4:ℚ))).getD i none = some 4 := by
        rw [List.getD_eq_getElem?_getD, List.getElem?_replicate, if_pos hi]
        rfl
      simp only [List.map_cons, List.map_nil, g2, g4]
      exact rowMean_pair
    rw [List.map_congr_left hcell]
    simp [List.map_const']

/-- Closed instantiation of the C1 theorem: an empty compiled table, and a
one-row two-column table exercising the row-mean and total conjuncts. -/
theorem C1_avg_witness :
    (avg_from_compiled ⟨2, ([] : List (String × List (Option ℚ)))⟩).1
      = List.replicate 2 none ∧
    (avg_from_compiled ⟨1, [("Residential0", [some 2]),
        ("Commercial0", [some 5])]⟩).1.getD 0 none
      = rowMean ((resColumns ⟨1, [("Residential0", [some 2]),
          ("Commercial0", [some 5])]⟩).map fun col => col.getD 0 none) ∧
    ((avg_from_compiled ⟨1, [("Residential0", [some 2]),
        ("Commercial0", [some 5])]⟩).2.2.getD 0 none).getD 0
      = ((avg_from_compiled ⟨1, [("Residential0", [some 2]),
          ("Commercial0", [some 5])]⟩).1.getD 0 none).getD 0
        + ((avg_from_compiled ⟨1, [("Residential0", [some 2]),
            ("Commercial0", [some 5])]⟩).2.1.getD 0 none).getD 0 :=
  ⟨(C1_avg_from_compiled_spec ⟨2, []⟩).2.1 rfl,
   (C1_avg_from_compiled_spec ⟨1, [("Residential0", [some 2]),
      ("Commercial0", [some 5])]⟩).2.2.2.1 0 (by decide) (by decide),
   (C1_avg_from_compiled_spec ⟨1, [("Residential0", [some 2]),
      ("Commercial0", [some 5])]⟩).2.2.2.2.2.1 0 (by decide)⟩

lemma sample_length (rng : Rng) (items : List Nat) (k : ℤ) :
    ((sample rng items k).1).length = sampleLen items k := by
  unfold sample sampleLen
  split_ifs with h
  · rfl
  · simp [Rng.integers]

lemma sample_mem (rng : Rng) (items : List Nat) (k : ℤ) (x : Nat)
    (hx : x ∈ (sample rng items k).1) : x ∈ items := by
  unfold sample at hx
  split_ifs at hx with h
  · cases hx
  · have hne : items ≠ [] := by
      intro he
      exact h (Or.inr he)
    simp only [Rng.integers, List.map_map, List.mem_map] at hx
    obtain ⟨j, _, rfl⟩ := hx
    have hlt : rng.stream (rng.pos + j) % items.length < items.length :=
      Nat.mod_lt _ (List.length_pos.mpr hne)
    simp only [Function.comp]
    rw [List.getD_eq_getElem?_getD, List.getElem?_eq_getElem hlt]
    exact List.getElem_mem hlt

lemma foldl_sample_length {β : Type} (pool : β → List Nat) (cnt : β → ℤ) :
    ∀ (items : List β) (acc : List Nat × Rng),
      ((items.foldl (fun acc b =>
          let p := sample acc.2 (pool b) (cnt b)
          (acc.1 ++ p.1, p.2)) acc).1).length
        = acc.1.length + (items.map fun b => sampleLen (pool b) (cnt b)).sum := by
  intro items
  induction items with
  | nil => simp
  | cons b rest ih =>
    intro acc
    simp only [List.foldl_cons]
    rw [ih]
    simp only [List.length_append, sample_length, List.map_cons, List.sum_cons]
    omega

lemma foldl_sample_mem {β : Type} (pool : β → List Nat) (cnt : β → ℤ) :
    ∀ (items : List β) (acc : List Nat × Rng) (x : Nat),
      x ∈ (items.foldl (fun acc b =>
          let p := sample acc.2 (pool b) (cnt b)
          (acc.1 ++ p.1, p.2)) acc).1 →
      x ∈ acc.1 ∨ ∃ b ∈ items, x ∈ pool b := by
  intro items
  induction items with
  | nil =>
    intro acc x hx
    exact Or.inl hx
  | cons b rest ih =>
    intro acc x hx
    simp only [List.foldl_cons] at hx
    rcases ih _ x hx with hacc | ⟨b', hb', hxb⟩
    · rcases List.mem_append.mp hacc with h1 | h2
      · exact Or.inl h1
      · exact Or.inr ⟨b, List.mem_cons_self b rest, sample_mem _ _ _ _ h2⟩
    · exact Or.inr ⟨b', List.mem_cons_of_mem b hb', hxb⟩

/-- C2: `_sample` returns exactly `k` identifiers from a non-empty pool when
`k` is positive (and none when the pool is empty or `k` is non-positive),
every sampled identifier lies in the pool, and the residential selection
concatenates per-subtype blocks whose lengths follow the
`round(multifamily_count * subtype_fraction)` request (zero for an empty
pool), every chosen identifier belonging to its subtype's candidate
pool. -/
theorem C2_sampling_spec :
    (∀ rng items (k : ℤ), ((sample rng items k).1).length = sampleLen items k) ∧
    (∀ rng items (k : ℤ), 0 < k → items ≠ [] →
      ((sample rng items k).1).length = k.toNat) ∧
    (∀ rng items (k : ℤ) x, x ∈ (sample rng items k).1 → x ∈ items) ∧
    (∀ cfg chars rng,
      ((construct_neighborhood_residential cfg chars rng).1).length
        = (cfg.neighborhood.multifamily_building_names.map fun name =>
            sampleLen (resCandidates chars name)
              (subtypeCount cfg.neighborhood name)).sum) ∧
    (∀ cfg chars rng x,
      x ∈ (construct_neighborhood_residential cfg chars rng).1 →
      ∃ name ∈ cfg.neighborhood.multifamily_building_names,
        x ∈ resCandidates chars name) := by
  refine ⟨sample_length, ?_, sample_mem, ?_, ?_⟩
  · intro rng items k hk hne
    rw [sample_length]
    unfold sampleLen
    rw [if_neg]
    push_neg
    exact ⟨hk, hne⟩
  · intro cfg chars rng
    unfold construct_neighborhood_residential
    rw [foldl_sample_length (resCandidates chars)
      (subtypeCount cfg.neighborhood) _ ([], rng)]
    simp
  · intro cfg chars rng x hx
    unfold construct_neighborhood_residential at hx
    rcases foldl_sample_mem (resCandidates chars) (subtypeCount cfg.neighborhood)
      _ ([], rng) x hx with h | h
    · cases h
    · exact h

/-- C3: with the generator seeded once per pipeline invocation and threaded
explicitly (never reseeded), the per-run building-identifier sequences are
a deterministic function of the seed: two executions of the selection
phase from equal seeds produce identical identifier sequences. -/
theorem C3_selection_deterministic (cfg : ScenarioCfg) (resChars : List RRow)
    (comChars : List CRow) (s1 s2 : Nat) (h : s1 = s2) :
    pipelineSelections cfg resChars comChars s1
      = pipelineSelections cfg resChars comChars s2 := by
  rw [h]

/-- Concrete column configuration for closed instantiations. -/
def demoColumns : ColumnCfg :=
  ⟨"bldg_id", "bldg_id", "in.geometry_building_type_recs", "in.units_represented",
   "in.sqft", "out.electricity.total.energy_consumption", "in.comstock_building_type",
   "in.sqft", "out.electricity.total.energy_consumption",
   "out.electricity.total.energy_consumption"⟩

/-- Concrete neighborhood mix for closed instantiations: two buildings, all
multifamily of the single subtype `MF`. -/
def demoNeighborhood : NeighborhoodCfg :=
  ⟨2, 1, 0, ["MF"], [("MF", 1)]⟩

/-- Concrete scenario configuration for closed instantiations. -/
def demoCfg : ScenarioCfg :=
  ⟨0, 2, false, true, demoColumns, ["MF"], demoNeighborhood⟩

/-- Concrete ResStock characteristics for closed instantiations. -/
def demoChars : List RRow := [⟨1, "MF"⟩]

lemma demo_subtypeCount : subtypeCount demoCfg.neighborhood "MF" = 2 := by
  simp only [subtypeCount, mfCount, demoCfg, demoNeighborhood, List.lookup, pyRound]
  norm_num

lemma demo_construct :
    (construct_neighborhood_residential demoCfg demoChars ⟨fun j => j, 0⟩).1
      = [1, 1] := by
  have hres : resCandidates demoChars "MF" = [1] := by decide
  unfold construct_neighborhood_residential
  have hn : demoCfg.neighborhood.multifamily_building_names = ["MF"] := rfl
  rw [hn]
  simp only [List.foldl_cons, List.foldl_nil, hres, demo_subtypeCount]
  decide

/-- Closed instantiation of the C2 theorem: three draws from a two-element
pool, membership of a sampled identifier, and membership of a selected
residential identifier in its subtype pool. -/
theorem C2_sampling_witness :
    ((sample ⟨fun j => j, 0⟩ [5, 7] 3).1).length = Int.toNat 3 ∧
    5 ∈ [5, 7] ∧
    (∃ name ∈ demoCfg.neighborhood.multifamily_building_names,
      1 ∈ resCandidates demoChars name) :=
  ⟨C2_sampling_spec.2.1 ⟨fun j => j, 0⟩ [5, 7] 3 (by decide) (by decide),
   C2_sampling_spec.2.2.1 ⟨fun j => j, 0⟩ [5, 7] 3 5 (by decide),
   C2_sampling_spec.2.2.2.2 demoCfg demoChars ⟨fun j => j, 0⟩ 1
     (by rw [demo_construct]; decide)⟩

/-- Closed instantiation of the C3 theorem at seed 7. -/
theorem C3_determinism_witness :
    pipelineSelections demoCfg demoChars [] 7
      = pipelineSelections demoCfg demoChars [] 7 :=
  C3_selection_deterministic demoCfg demoChars [] 7 7 rfl

lemma lookup_setColAux (cols : List (String × Column)) (n : String) (c : Column)
    (n' : String) :
    (setColAux cols n c).lookup n' = if n' = n then some c else cols.lookup n' := by
  induction cols with
  | nil =>
    by_cases h : n' = n
    · subst h
      simp [setColAux, List.lookup]
    · simp [setColAux, List.lookup, beq_eq_false_iff_ne.mpr h, h]
  | cons p rest ih =>
    obtain ⟨m, d⟩ := p
    by_cases hmn : m = n
    · subst hmn
      simp only [setColAux, beq_self_eq_true, if_true]
      by_cases h : n' = m
      · subst h
        simp [List.lookup]
      · simp [List.lookup, beq_eq_false_iff_ne.mpr h, h]
    · have hb : (m == n) = false := beq_eq_false_iff_ne.mpr hmn
      simp only [setColAux, hb, Bool.false_eq_true, if_false]
      by_cases h : n' = m
      · subst h
        simp [List.lookup, hmn]
      · have hb2 : (n' == m) = false := beq_eq_false_iff_ne.mpr h
        simp [List.lookup, hb2, ih]

lemma findCol_setCol (df : Frame) (n : String) (c : Column) (n' : String) :
    (df.setCol n c).findCol n' = if n' = n then some c else df.findCol n' := by
  unfold Frame.findCol Frame.setCol
  exact lookup_setColAux df.cols n c n'

lemma setColAux_self (cols : List (String × Column)) (n : String) (c : Column)
    (h : cols.lookup n = some c) : setColAux cols n c = cols := by
  induction cols with
  | nil => cases h
  | cons p rest ih =>
    obtain ⟨m, d⟩ := p
    by_cases hmn : m = n
    · subst hmn
      have hd : d = c := by
        simpa [List.lookup] using h
      subst hd
      simp [setColAux]
    · have hb : (m == n) = false := beq_eq_false_iff_ne.mpr hmn
      have hb2 : (n == m) = false := beq_eq_false_iff_ne.mpr fun he => hmn he.symm
      simp only [List.lookup, hb2] at h
      simp only [setColAux, hb, Bool.false_eq_true, if_false]
      rw [ih h]

lemma setCol_self (df : Frame) (n : String) (c : Column)
    (h : df.findCol n = some c) : df.setCol n c = df := by
  unfold Frame.setCol
  rw [setColAux_self df.cols n c h]

lemma numsOf_eq_some_iff (df : Frame) (n : String) (l : List ℚ) :
    df.numsOf n = some l ↔ df.findCol n = some (Column.nums l) := by
  unfold Frame.numsOf
  cases hf : df.findCol n with
  | none => simp
  | some c => cases c <;> simp

lemma strsOf_eq_some_iff (df : Frame) (n : String) (l : List String) :
    df.strsOf n = some l ↔ df.findCol n = some (Column.strs l) := by
  unfold Frame.strsOf
  cases hf : df.findCol n with
  | none => simp
  | some c => cases c <;> simp

lemma numsOf_setCol_same (df : Frame) (n : String) (l : List ℚ) :
    (df.setCol n (Column.nums l)).numsOf n = some l := by
  rw [numsOf_eq_some_iff, findCol_setCol, if_pos rfl]

lemma numsOf_setCol_other (df : Frame) (n : String) (c : Column) (n' : String)
    (h : n' ≠ n) : (df.setCol n c).numsOf n' = df.numsOf n' := by
  unfold Frame.numsOf
  rw [findCol_setCol, if_neg h]

lemma hasCol_eq_isSome (df : Frame) (n : String) :
    df.hasCol n = (df.findCol n).isSome := by
  unfold Frame.hasCol Frame.findCol
  induction df.cols with
  | nil => rfl
  | cons p rest ih =>
    obtain ⟨m, d⟩ := p
    by_cases h : m = n
    · subst h
      simp [List.lookup]
    · have hb : (m == n) = false := beq_eq_false_iff_ne.mpr h
      have hb2 : (n == m) = false := beq_eq_false_iff_ne.mpr fun he => h he.symm
      simp [List.lookup, hb, hb2, ih]

lemma zip3With_getD (f : Bool → ℚ → ℚ → ℚ) :
    ∀ (ms : List Bool) (as bs : List ℚ) (i : Nat),
      i < ms.length → i < as.length → i < bs.length →
      (zip3With f ms as bs).getD i 0 = f (ms.getD i false) (as.getD i 0) (bs.getD i 0) := by
  intro ms
  induction ms with
  | nil =>
    intro as bs i h1
    cases h1
  | cons m ms' ih =>
    intro as bs i h1 h2 h3
    cases as with
    | nil => cases h2
    | cons a as' =>
      cases bs with
      | nil => cases h3
      | cons b bs' =>
        cases i with
        | zero => rfl
        | succ j =>
          simp only [zip3With, List.getD_cons_succ]
          exact ih as' bs' j (by simpa using h1) (by simpa using h2) (by simpa using h3)

lemma numAt_eq (df : Frame) (n : String) (l : List ℚ) (i : Nat)
    (h : df.numsOf n = some l) (hi : i < l.length) :
    df.numAt n i = some (l.getD i 0) := by
  unfold Frame.numAt
  rw [h]
  simp [List.getD_eq_getElem?_getD, List.getElem?_eq_getElem hi]

lemma zip3With_length (f : Bool → ℚ → ℚ → ℚ) :
    ∀ (ms : List Bool) (as bs : List ℚ),
      (zip3With f ms as bs).length = min ms.length (min as.length bs.length) := by
  intro ms
  induction ms with
  | nil =>
    intro as bs
    simp [zip3With]
  | cons m ms' ih =>
    intro as bs
    cases as with
    | nil => simp [zip3With]
    | cons a as' =>
      cases bs with
      | nil => simp [zip3With]
      | cons b bs' =>
        simp only [zip3With, List.length_cons, ih]
        omega

lemma getD_map_contains (filt : List String) (bt : List String) (i : Nat)
    (hi : i < bt.length) :
    (bt.map fun b => filt.contains b).getD i false = filt.contains (bt.getD i "") := by
  rw [List.getD_eq_getElem?_getD, List.getElem?_map, List.getElem?_eq_getElem hi]
  simp [List.getD_eq_getElem?_getD, List.getElem?_eq_getElem hi]

/-- C4: on a frame carrying the building-type, energy and unit-count columns,
`apply_multifamily_adjustments` multiplies the energy cell by the unit
count exactly on rows whose building type is in the configured multifamily
set (other rows keep their energy value); with the square-footage column
also present it adds an `in.sqft_adjust` column equal to `sqft * units` on
multifamily rows and the original square footage elsewhere; and with the
building-type column absent it returns the input unchanged. -/
theorem C4_apply_multifamily_adjustments_spec (cfg : ScenarioCfg) (df : Frame) :
    (∀ bt es us,
      df.strsOf cfg.columns.resstock_building_type = some bt →
      df.numsOf cfg.columns.electricity_kwh = some es →
      df.numsOf cfg.columns.resstock_units_mf = some us →
      cfg.columns.electricity_kwh ≠ "in.sqft_adjust" →
      ∀ i, i < bt.length → i < es.length → i < us.length →
        (apply_multifamily_adjustments cfg df).numAt cfg.columns.electricity_kwh i
          = some (if cfg.multifamily_filter.contains (bt.getD i "")
              then es.getD i 0 * us.getD i 0 else es.getD i 0)) ∧
    (∀ bt ss us,
      df.strsOf cfg.columns.resstock_building_type = some bt →
      df.numsOf cfg.columns.resstock_sqft = some ss →
      df.numsOf cfg.columns.resstock_units_mf = some us →
      cfg.columns.resstock_sqft ≠ cfg.columns.electricity_kwh →
      cfg.columns.resstock_units_mf ≠ cfg.columns.electricity_kwh →
      ∀ i, i < bt.length → i < ss.length → i < us.length →
        (apply_multifamily_adjustments cfg df).numAt "in.sqft_adjust" i
          = some (if cfg.multifamily_filter.contains (bt.getD i "")
              then ss.getD i 0 * us.getD i 0 else ss.getD i 0)) ∧
    (df.hasCol cfg.columns.resstock_building_type = false →
      apply_multifamily_adjustments cfg df = df) := by
  refine ⟨?_, ?_, ?_⟩
  · intro bt es us hbt hes hus hne i hib hie hiu
    have hfind : df.findCol cfg.columns.resstock_building_type
        = some (Column.strs bt) := (strsOf_eq_some_iff _ _ _).mp hbt
    have hmask : mfMask cfg df
        = some (bt.map fun b => cfg.multifamily_filter.contains b) := by
      unfold mfMask
      rw [hfind]
    have hmlen : i < (bt.map fun b => cfg.multifamily_filter.contains b).length := by
      simpa using hib
    have hlen2 : i < (zip3With (fun m e u => if m then e * u else e)
        (bt.map fun b => cfg.multifamily_filter.contains b) es us).length := by
      rw [zip3With_length]
      simp only [List.length_map]
      omega
    have hval : (zip3With (fun m e u => if m then e * u else e)
          (bt.map fun b => cfg.multifamily_filter.contains b) es us).getD i 0
        = if cfg.multifamily_filter.contains (bt.getD i "")
            then es.getD i 0 * us.getD i 0 else es.getD i 0 := by
      rw [zip3With_getD _ _ es us i hmlen hie hiu,
        getD_map_contains cfg.multifamily_filter bt i hib]
    unfold apply_multifamily_adjustments
    rw [hmask]
    simp only [hes, hus]
    rcases hss : (df.setCol cfg.columns.electricity_kwh
        (Column.nums (zip3With (fun m e u => if m then e * u else e)
          (bt.map fun b => cfg.multifamily_filter.contains b) es us))).numsOf
        cfg.columns.resstock_sqft with _ | ss
    · simp only [hss]
      rw [numAt_eq _ _ _ i (numsOf_setCol_same df _ _) hlen2, hval]
    · rcases huu : (df.setCol cfg.columns.electricity_kwh
          (Column.nums (zip3With (fun m e u => if m then e * u else e)
            (bt.map fun b => cfg.multifamily_filter.contains b) es us))).numsOf
          cfg.columns.resstock_units_mf with _ | us'
      · simp only [hss, huu]
        rw [numAt_eq _ _ _ i (numsOf_setCol_same df _ _) hlen2, hval]
      · simp only [hss, huu]
        rw [numAt_eq _ _ _ i
          (by
            rw [numsOf_setCol_other _ _ _ _ hne]
            exact numsOf_setCol_same df _ _) hlen2, hval]
  · intro bt ss us hbt hss hus h2 h3 i hib his hiu
    have hfind : df.findCol cfg.columns.resstock_building_type
        = some (Column.strs bt) := (strsOf_eq_some_iff _ _ _).mp hbt
    have hmask : mfMask cfg df
        = some (bt.map fun b => cfg.multifamily_filter.contains b) := by
      unfold mfMask
      rw [hfind]
    have hmlen : i < (bt.map fun b => cfg.multifamily_filter.contains b).length := by
      simpa using hib
    have hlen2 : i < (zip3With (fun m s u => if m then s * u else s)
        (bt.map fun b => cfg.multifamily_filter.contains b) ss us).length := by
      rw [zip3With_length]
      simp only [List.length_map]
      omega
    have hval : (zip3With (fun m s u => if m then s * u else s)
          (bt.map fun b => cfg.multifamily_filter.contains b) ss us).getD i 0
        = if cfg.multifamily_filter.contains (bt.getD i "")
            then ss.getD i 0 * us.getD i 0 else ss.getD i 0 := by
      rw [zip3With_getD _ _ ss us i hmlen his hiu,
        getD_map_contains cfg.multifamily_filter bt i hib]
    unfold apply_multifamily_adjustments
    rw [hmask]
    rcases hee : df.numsOf cfg.columns.electricity_kwh with _ | es
    · simp only [hee, hss, hus]
      rw [numAt_eq _ _ _ i (numsOf_setCol_same df _ _) hlen2, hval]
    · simp only [hee, hus]
      have hss1 : (df.setCol cfg.columns.electricity_kwh
          (Column.nums (zip3With (fun m e u => if m then e * u else e)
            (bt.map fun b => cfg.multifamily_filter.contains b) es us))).numsOf
          cfg.columns.resstock_sqft = some ss := by
        rw [numsOf_setCol_other _ _ _ _ h2]
        exact hss
      have hus1 : (df.setCol cfg.columns.electricity_kwh
          (Column.nums (zip3With (fun m e u => if m then e * u else e)
            (bt.map fun b => cfg.multifamily_filter.contains b) es us))).numsOf
          cfg.columns.resstock_units_mf = some us := by
        rw [numsOf_setCol_other _ _ _ _ h3]
        exact hus
      simp only [hss1, hus1]
      rw [numAt_eq _ _ _ i (numsOf_setCol_same _ _ _) hlen2, hval]
  · intro h
    have hfind : df.findCol cfg.columns.resstock_building_type = none := by
      rw [hasCol_eq_isSome] at h
      exact Option.not_isSome_iff_eq_none.mp (by simp [h])
    unfold apply_multifamily_adjustments
    unfold mfMask
    rw [hfind]

/-- Concrete merged frame for closed instantiations: two rows, the first
multifamily. -/
def demoFrame : Frame :=
  ⟨[("in.geometry_building_type_recs", Column.strs ["MF", "SF"]),
    ("out.electricity.total.energy_consumption", Column.nums [3, 4]),
    ("in.units_represented", Column.nums [10, 1]),
    ("in.sqft", Column.nums [100, 200])]⟩

/-- Concrete frame with no building-type column. -/
def demoNoTypeFrame : Frame :=
  ⟨[("out.electricity.total.energy_consumption", Column.nums [3])]⟩

/-- Closed instantiation of the C4 theorem on a two-row frame: the energy cell
of the multifamily row, the adjusted square footage of the single-family
row, and pass-through on a frame without a building-type column. -/
theorem C4_adjustments_witness :
    (apply_multifamily_adjustments demoCfg demoFrame).numAt
        demoCfg.columns.electricity_kwh 0
      = some (if demoCfg.multifamily_filter.contains ((["MF", "SF"]).getD 0 "")
          then (([3, 4] : List ℚ)).getD 0 0 * (([10, 1] : List ℚ)).getD 0 0
          else (([3, 4] : List ℚ)).getD 0 0) ∧
    (apply_multifamily_adjustments demoCfg demoFrame).numAt "in.sqft_adjust" 1
      = some (if demoCfg.multifamily_filter.contains ((["MF", "SF"]).getD 1 "")
          then (([100, 200] : List ℚ)).getD 1 0 * (([10, 1] : List ℚ)).getD 1 0
          else (([100, 200] : List ℚ)).getD 1 0) ∧
    apply_multifamily_adjustments demoCfg demoNoTypeFrame = demoNoTypeFrame :=
  ⟨(C4_apply_multifamily_adjustments_spec demoCfg demoFrame).1 ["MF", "SF"]
      [3, 4] [10, 1] rfl rfl rfl (by decide) 0 (by decide) (by decide) (by decide),
   (C4_apply_multifamily_adjustments_spec demoCfg demoFrame).2.1 ["MF", "SF"]
      [100, 200] [10, 1] rfl rfl rfl (by decide) (by decide) 1 (by decide)
      (by decide) (by decide),
   (C4_apply_multifamily_adjustments_spec demoCfg demoNoTypeFrame).2.2 (by decide)⟩

/-- C5: when the adjustment multiplier is disabled the per-run factors are all
exactly 1.0 and scaling by 1.0 leaves any frame unchanged; when enabled,
run `i`'s factor is the single normal draw `1.0 + 0.2 * z_i` from the
generator word consumed for that run; the multiplier step rescales only
the residential energy column (every other column of the adjusted
residential frame is untouched), and the commercial frame is never
multiplied. -/
theorem C5_multiplier_spec (cfg : ScenarioCfg) (rng : Rng) (res com : Frame) :
    (cfg.adjustment_multiplier_off = true →
      (multipliers cfg rng).1 = List.replicate cfg.sample_runs 1) ∧
    (∀ df : Frame, multiplierStep cfg df 1 = df) ∧
    (cfg.adjustment_multiplier_off = false → ∀ i, i < cfg.sample_runs →
      (multipliers cfg rng).1.getD i 0
        = 1 + (1/5) * stdNormalDraw (rng.stream (rng.pos + i))) ∧
    (∀ m, (perRunAdjust cfg res com m).2 = com) ∧
    (∀ m name, name ≠ cfg.columns.resstock_electricity_kwh →
      ((perRunAdjust cfg res com m).1).findCol name
        = (apply_multifamily_adjustments cfg res).findCol name) ∧
    (∀ m es, (apply_multifamily_adjustments cfg res).numsOf
        cfg.columns.resstock_electricity_kwh = some es →
      ((perRunAdjust cfg res com m).1).numsOf cfg.columns.resstock_electricity_kwh
        = some (es.map fun e => e * m)) := by
  refine ⟨?_, ?_, ?_, ?_, ?_, ?_⟩
  · intro h
    simp [multipliers, h]
  · intro df
    unfold multiplierStep
    cases hh : df.numsOf cfg.columns.resstock_electricity_kwh with
    | none => rfl
    | some es =>
      have hmap : es.map (fun e => e * 1) = es := by
        simp
      simp only [hmap]
      exact setCol_self df _ _ ((numsOf_eq_some_iff df _ es).mp hh)
  · intro h i hi
    simp only [multipliers, h, Bool.false_eq_true, if_false, Rng.normal]
    rw [List.getD_eq_getElem?_getD, List.getElem?_map, List.getElem?_range hi]
    rfl
  · intro m
    rfl
  · intro m name hne
    show (multiplierStep cfg (apply_multifamily_adjustments cfg res) m).findCol name = _
    unfold multiplierStep
    cases hh : (apply_multifamily_adjustments cfg res).numsOf
        cfg.columns.resstock_electricity_kwh with
    | none => rfl
    | some es =>
      rw [findCol_setCol, if_neg hne]
  · intro m es h
    show (multiplierStep cfg (apply_multifamily_adjustments cfg res) m).numsOf _ = _
    unfold multiplierStep
    rw [h]
    exact numsOf_setCol_same _ _ _

/-- Concrete scenario with the adjustment multiplier enabled. -/
def demoCfgOn : ScenarioCfg :=
  ⟨0, 2, false, false, demoColumns, ["MF"], demoNeighborhood⟩

/-- Closed instantiation of the C5 theorem: disabled multipliers are all one,
an enabled run-1 factor is the affine normal draw, a non-energy column is
untouched, and the energy column is rescaled elementwise. -/
theorem C5_multiplier_witness :
    (multipliers demoCfg ⟨fun j => j, 0⟩).1 = List.replicate 2 1 ∧
    (multipliers demoCfgOn ⟨fun j => j, 0⟩).1.getD 1 0
      = 1 + (1/5) * stdNormalDraw ((fun j => j) (0 + 1)) ∧
    ((perRunAdjust demoCfg demoNoTypeFrame demoNoTypeFrame 2).1).findCol "x"
      = (apply_multifamily_adjustments demoCfg demoNoTypeFrame).findCol "x" ∧
    ((perRunAdjust demoCfg demoNoTypeFrame demoNoTypeFrame 2).1).numsOf
        demoCfg.columns.resstock_electricity_kwh
      = some (([3] : List ℚ).map fun e => e * 2) :=
  ⟨(C5_multiplier_spec demoCfg ⟨fun j => j, 0⟩ demoNoTypeFrame demoNoTypeFrame).1 rfl,
   (C5_multiplier_spec demoCfgOn ⟨fun j => j, 0⟩ demoNoTypeFrame demoNoTypeFrame).2.2.1
      rfl 1 (by decide),
   (C5_multiplier_spec demoCfg ⟨fun j => j, 0⟩ demoNoTypeFrame demoNoTypeFrame).2.2.2.2.1
      2 "x" (by decide),
   (C5_multiplier_spec demoCfg ⟨fun j => j, 0⟩ demoNoTypeFrame demoNoTypeFrame).2.2.2.2.2
      2 [3] rfl⟩

lemma exceptOk_map {α β : Type} (f : α → β) (e : Except String α) :
    exceptOk (e.map f) = exceptOk e := by
  cases e <;> rfl

lemma applyUnitHeuristic_error_iff (u : String) (s : List (Nat × ℚ)) :
    exceptOk (applyUnitHeuristic u s) = false ↔ (u ≠ "C" ∧ u ≠ "F") := by
  unfold applyUnitHeuristic
  split_ifs with h1 h2
  · cases hm : medianOf (s.map fun p => p.2) with
    | none => simp [hm, exceptOk, h1]
    | some m => by_cases hgt : m > 45 <;> simp [hm, hgt, exceptOk, h1]
  · cases hm : medianOf (s.map fun p => p.2) with
    | none => simp [hm, exceptOk, h2]
    | some m => by_cases hlt : m < 35 <;> simp [hm, hlt, exceptOk, h2]
  · simp [exceptOk, h1, h2]

lemma weather_example_eval :
    read_weather_csv_auto ⟨[("DATE", ["0", "1"]), ("TEMP", ["10", "12"])]⟩ "C" none
      = Except.ok ⟨[(0, some 10), (1, some 12)], none⟩ := by
  have hdt : firstCand ⟨[("DATE", ["0", "1"]), ("TEMP", ["10", "12"])]⟩ dtCandidates
      = some "DATE" := by decide
  have htc : firstCand (weatherSearchFrame
      ⟨[("DATE", ["0", "1"]), ("TEMP", ["10", "12"])]⟩) tempCandidates
      = some "TEMP" := by decide
  have hu : pyStrip (pyUpper "C") = "C" := by decide
  have hd0 : pdToDatetime "0" = some 0 := by decide
  have hd1 : pdToDatetime "1" = some 1 := by decide
  have h10 : pdToNumeric "10" = some 10 := by decide
  have h12 : pdToNumeric "12" = some 12 := by decide
  have hmed : medianOf [10, 12] = some 11 := by
    norm_num [medianOf, sortBy, insertSorted]
  have hcolT : wGetCol ⟨[("DATE", ["0", "1"]), ("TEMP", ["10", "12"])]⟩ "TEMP"
      = ["10", "12"] := by decide
  have hcolD : wGetCol ⟨[("DATE", ["0", "1"]), ("TEMP", ["10", "12"])]⟩ "DATE"
      = ["0", "1"] := by decide
  simp only [read_weather_csv_auto, hdt, htc, hu, hcolT, hcolD]
  have hge0 : (["10", "12"] : List String)[(0 : Nat)]? = some "10" := by decide
  have hge1 : (["10", "12"] : List String)[(1 : Nat)]? = some "12" := by decide
  have hb10 : ((1 : Nat) == 0) = false := by decide
  have hb01 : ((0 : Nat) == 1) = false := by decide
  norm_num [hd0, hd1, h10, h12, hmed, hge0, hge1, hb10, hb01, Option.getD_some,
    sortBy, insertSorted, applyUnitHeuristic, hourlyMean, Except.map,
    List.range_succ, List.range_zero, List.filterMap_cons, List.filter,
    List.getElem_cons_zero, List.getElem_cons_succ, List.sum_cons, List.sum_nil]

lemma exceptOk_applyUnitHeuristic_of_valid (u : String) (s : List (Nat × ℚ))
    (h : u = "C" ∨ u = "F") : exceptOk (applyUnitHeuristic u s) = true := by
  cases hb : exceptOk (applyUnitHeuristic u s)
  · rcases (applyUnitHeuristic_error_iff u s).mp hb with ⟨h1, h2⟩
    rcases h with h | h
    exacts [absurd h h1, absurd h h2]
  · rfl

/-- C7: with target Celsius and median above 45 every value is converted by
`(v - 32) * 5/9`; with target Celsius and median at most 45 values are left
unconverted; with target Fahrenheit and median below 35 every value is
converted by `v * 9/5 + 32`; with target Fahrenheit and median at least 35
values are left unconverted; and the two-row DATE/TEMP CSV with values 10
and 12 read with target Celsius yields the hourly outdoor-air-temperature
series 10, 12 with no conversion applied. -/
theorem C7_weather_unit_heuristic :
    (∀ (s : List (Nat × ℚ)) m, medianOf (s.map fun p => p.2) = some m → m > 45 →
      applyUnitHeuristic "C" s = Except.ok (s.map fun p => (p.1, fToC p.2))) ∧
    (∀ (s : List (Nat × ℚ)) m, medianOf (s.map fun p => p.2) = some m → ¬(m > 45) →
      applyUnitHeuristic "C" s = Except.ok s) ∧
    (∀ (s : List (Nat × ℚ)) m, medianOf (s.map fun p => p.2) = some m → m < 35 →
      applyUnitHeuristic "F" s = Except.ok (s.map fun p => (p.1, cToF p.2))) ∧
    (∀ (s : List (Nat × ℚ)) m, medianOf (s.map fun p => p.2) = some m → ¬(m < 35) →
      applyUnitHeuristic "F" s = Except.ok s) ∧
    read_weather_csv_auto ⟨[("DATE", ["0", "1"]), ("TEMP", ["10", "12"])]⟩ "C" none
      = Except.ok ⟨[(0, some 10), (1, some 12)], none⟩ := by
  refine ⟨?_, ?_, ?_, ?_, weather_example_eval⟩
  · intro s m hm hgt
    unfold applyUnitHeuristic
    rw [if_pos rfl]
    simp only [hm]
    rw [if_pos hgt]
  · intro s m hm hgt
    unfold applyUnitHeuristic
    rw [if_pos rfl]
    simp only [hm]
    rw [if_neg hgt]
  · intro s m hm hlt
    unfold applyUnitHeuristic
    rw [if_neg (by decide), if_pos rfl]
    simp only [hm]
    rw [if_pos hlt]
  · intro s m hm hlt
    unfold applyUnitHeuristic
    rw [if_neg (by decide), if_pos rfl]
    simp only [hm]
    rw [if_neg hlt]

/-- Closed instantiation of the C7 theorem: a Fahrenheit-looking series under
target Celsius is converted; a Celsius-looking series under target
Fahrenheit with median 40 is left unconverted. -/
theorem C7_weather_witness :
    applyUnitHeuristic "C" [(0, 70), (1, 80)]
      = Except.ok (([(0, (70 : ℚ)), (1, 80)]).map fun p => (p.1, fToC p.2)) ∧
    applyUnitHeuristic "F" [(0, 40)] = Except.ok [(0, (40 : ℚ))] :=
  ⟨C7_weather_unit_heuristic.1 [(0, 70), (1, 80)] 75
      (by norm_num [medianOf, sortBy, insertSorted]) (by norm_num),
   C7_weather_unit_heuristic.2.2.2.1 [(0, 40)] 40
      (by norm_num [medianOf, sortBy, insertSorted]) (by norm_num)⟩

/-- C8 (amended): weather ingestion of a loaded table raises an error exactly
when no temperature-like candidate column is present (outside the column
consumed as the datetime index) or when the normalized unit token is
neither `C` nor `F`; the absence of a datetime-like column is NOT an error:
the reader then falls back to converting the positional index. -/
theorem C8_weather_error_characterization (t : WFrame) (units : String)
    (lbl : Option String) :
    exceptOk (read_weather_csv_auto t units lbl) = false ↔
      (firstCand (weatherSearchFrame t) tempCandidates = none ∨
       (pyStrip (pyUpper units) ≠ "C" ∧ pyStrip (pyUpper units) ≠ "F")) := by
  unfold read_weather_csv_auto
  cases htc : firstCand (weatherSearchFrame t) tempCandidates with
  | none => simp [htc, exceptOk]
  | some tc =>
    simp only [htc]
    rw [exceptOk_map, applyUnitHeuristic_error_iff]
    simp

/-- Counterexample to C8 as stated: a table with a `TEMP` column but no
datetime-like candidate column is read without error (target Celsius),
while the claim requires an error whenever no datetime-like column is
found. -/
theorem C8_no_datetime_counterexample :
    firstCand ⟨[("TEMP", ["10", "12"])]⟩ dtCandidates = none ∧
    exceptOk (read_weather_csv_auto ⟨[("TEMP", ["10", "12"])]⟩ "C" none) = true := by
  refine ⟨by decide, ?_⟩
  have hu : pyStrip (pyUpper "C") = "C" := by decide
  have htc : firstCand (weatherSearchFrame ⟨[("TEMP", ["10", "12"])]⟩) tempCandidates
      = some "TEMP" := by decide
  unfold read_weather_csv_auto
  simp only [htc, hu]
  rw [exceptOk_map]
  exact exceptOk_applyUnitHeuristic_of_valid _ _ (Or.inl rfl)

lemma mem_dedupFirst (l : List Nat) (x : Nat) : x ∈ dedupFirst l ↔ x ∈ l := by
  induction l using dedupFirst.induct with
  | case1 => simp [dedupFirst]
  | case2 p rest ih =>
    rw [dedupFirst]
    by_cases hx : x = p
    · subst hx
      simp
    · simp only [List.mem_cons, ih, List.mem_filter]
      simp [hx]

lemma nodup_dedupFirst (l : List Nat) : (dedupFirst l).Nodup := by
  induction l using dedupFirst.induct with
  | case1 => simp [dedupFirst]
  | case2 p rest ih =>
    rw [dedupFirst]
    refine List.nodup_cons.mpr ⟨?_, ih⟩
    intro hmem
    rw [mem_dedupFirst] at hmem
    have := List.mem_filter.mp hmem
    simp at this

lemma lookupTable_cons {α : Type} (a : Nat) (ta : List α) (c : List (Nat × List α))
    (p : Nat) :
    lookupTable ((a, ta) :: c) p = if a == p then some ta else lookupTable c p := by
  unfold lookupTable
  rw [List.find?_cons]
  cases hab : (a == p) <;> simp [hab]

lemma mapM_cache_lookup {α : Type} (fs : Nat → Option (List α)) :
    ∀ (l : List Nat) (cache : List (Nat × List α)),
      l.mapM (fun p => (fs p).map fun t => (p, t)) = some cache →
      ∀ p ∈ l, lookupTable cache p = fs p := by
  intro l
  induction l with
  | nil =>
    intro cache _ p hp
    cases hp
  | cons a l' ih =>
    intro cache h p hp
    rw [List.mapM_cons] at h
    cases hfa : fs a with
    | none =>
      rw [hfa] at h
      simp at h
    | some ta =>
      rw [hfa] at h
      cases hrest : l'.mapM (fun p => (fs p).map fun t => (p, t)) with
      | none =>
        rw [hrest] at h
        simp at h
      | some cache' =>
        rw [hrest] at h
        simp at h
        subst h
        rcases List.mem_cons.mp hp with rfl | hp'
        · rw [lookupTable_cons]
          simp [hfa]
        · by_cases hpa : p = a
          · subst hpa
            rw [lookupTable_cons]
            simp [hfa]
          · rw [lookupTable_cons,
              if_neg (by simpa using fun he => hpa he.symm)]
            exact ih cache' hrest p hp'

lemma mapM_cache_exists {α : Type} (fs : Nat → Option (List α)) :
    ∀ (l : List Nat), (∀ p ∈ l, (fs p).isSome) →
      ∃ cache, l.mapM (fun p => (fs p).map fun t => (p, t)) = some cache := by
  intro l
  induction l with
  | nil => exact fun _ => ⟨[], rfl⟩
  | cons a l' ih =>
    intro h
    obtain ⟨ta, hta⟩ := Option.isSome_iff_exists.mp (h a (List.mem_cons_self a l'))
    obtain ⟨cache', hc⟩ := ih fun p hp => h p (List.mem_cons_of_mem _ hp)
    refine ⟨(a, ta) :: cache', ?_⟩
    rw [List.mapM_cons, hta, hc]
    rfl

lemma mapM_lookup_eq {α : Type} (fs : Nat → Option (List α))
    (cache : List (Nat × List α)) :
    ∀ (l : List Nat), (∀ p ∈ l, lookupTable cache p = fs p) →
      (l.mapM fun p => lookupTable cache p) = l.mapM fs := by
  intro l
  induction l with
  | nil => intro _; rfl
  | cons a l' ih =>
    intro h
    rw [List.mapM_cons, List.mapM_cons, h a (List.mem_cons_self a l'),
      ih fun p hp => h p (List.mem_cons_of_mem _ hp)]

/-- C9: when every requested file exists, the de-duplicating parallel reader
returns exactly the table of the naive sequential reader — same rows, same
caller-requested order, one copy per occurrence of a duplicated path; the
set of files it actually fetches is the duplicate-free first-occurrence
list of the requested paths (each unique file read once); and the empty
path list yields the empty table in both readers. -/
theorem C9_cached_reader_equivalent {α : Type} (fs : Nat → Option (List α))
    (paths : List Nat) :
    ((∀ p ∈ paths, (fs p).isSome) →
      read_many_building_parquets_cached fs paths
        = read_many_building_parquets fs paths) ∧
    (dedupFirst paths).Nodup ∧
    (∀ p, p ∈ dedupFirst paths ↔ p ∈ paths) ∧
    read_many_building_parquets_cached fs ([] : List Nat) = some [] ∧
    read_many_building_parquets fs ([] : List Nat) = some [] := by
  refine ⟨?_, nodup_dedupFirst paths, fun p => mem_dedupFirst paths p, rfl, rfl⟩
  intro h
  by_cases hnil : paths = []
  · subst hnil
    rfl
  · unfold read_many_building_parquets_cached
    rw [if_neg hnil]
    obtain ⟨cache, hc⟩ := mapM_cache_exists fs (dedupFirst paths)
      fun p hp => h p ((mem_dedupFirst paths p).mp hp)
    simp only [hc]
    unfold read_many_building_parquets
    rw [mapM_lookup_eq fs cache paths
      fun p hp => mapM_cache_lookup fs (dedupFirst paths) cache hc p
        ((mem_dedupFirst paths p).mpr hp)]

/-- Closed instantiation of the C9 theorem: a duplicate-containing path list
over a two-file store reads equally through both readers. -/
theorem C9_reader_witness :
    read_many_building_parquets_cached
        (fun p => if p < 2 then some [p] else none) [0, 1, 0]
      = read_many_building_parquets
        (fun p => if p < 2 then some [p] else none) [0, 1, 0] :=
  (C9_cached_reader_equivalent (fun p => if p < 2 then some [p] else none)
    [0, 1, 0]).1 (by decide)

lemma heapGet_append_lt (h : List Frame) (df : Frame) (r : Nat)
    (hr : r < h.length) : heapGet (h ++ [df]) r = heapGet h r := by
  unfold heapGet
  exact List.getD_append h [df] ⟨[]⟩ r hr

lemma heapGet_append_self (h : List Frame) (df : Frame) :
    heapGet (h ++ [df]) h.length = df := by
  unfold heapGet
  rw [List.getD_append_right h [df] ⟨[]⟩ h.length (le_refl _)]
  simp

lemma heapGet_set_append (h : List Frame) (d x : Frame) :
    heapGet ((h ++ [d]).set h.length x) h.length = x := by
  unfold heapGet
  rw [List.getD_eq_getElem?_getD, List.getElem?_set_self (by simp)]
  rfl

lemma heapGet_set_append_lt (h : List Frame) (d x : Frame) (r : Nat)
    (hr : r < h.length) :
    heapGet ((h ++ [d]).set h.length x) r = heapGet h r := by
  unfold heapGet
  rw [List.getD_eq_getElem?_getD, List.getElem?_set_ne (by omega),
    ← List.getD_eq_getElem?_getD]
  exact List.getD_append h [d] ⟨[]⟩ r hr

/-- C10: the state-level `apply_multifamily_adjustments` never mutates its
argument: the returned reference is the freshly allocated copy (a new slot,
distinct from the argument's), the argument's heap slot holds exactly the
frame it held before the call, and the frame in the returned slot is the
pure function of the input frame. -/
theorem C10_no_mutation_spec (cfg : ScenarioCfg) (h : List Frame) (r : Nat)
    (hr : r < h.length) :
    (apply_multifamily_adjustments_st cfg h r).2 = h.length ∧
    (apply_multifamily_adjustments_st cfg h r).2 ≠ r ∧
    heapGet (apply_multifamily_adjustments_st cfg h r).1 r = heapGet h r ∧
    heapGet (apply_multifamily_adjustments_st cfg h r).1
        (apply_multifamily_adjustments_st cfg h r).2
      = apply_multifamily_adjustments cfg (heapGet h r) := by
  have hdf : heapGet (h ++ [heapGet h r]) h.length = heapGet h r :=
    heapGet_append_self h _
  unfold apply_multifamily_adjustments_st apply_multifamily_adjustments
  cases hm : mfMask cfg (heapGet h r) with
  | none =>
    simp only [hm]
    exact ⟨trivial, by omega, heapGet_append_lt h _ r hr, heapGet_append_self h _⟩
  | some mask =>
    simp only [hm, hdf]
    cases he : (heapGet h r).numsOf cfg.columns.electricity_kwh with
    | none =>
      simp only [hdf]
      cases hs : (heapGet h r).numsOf cfg.columns.resstock_sqft with
      | none =>
        refine ⟨trivial, by omega, heapGet_append_lt h _ r hr, heapGet_append_self h _⟩
      | some ss =>
        cases hu : (heapGet h r).numsOf cfg.columns.resstock_units_mf with
        | none =>
          refine ⟨trivial, by omega, heapGet_append_lt h _ r hr, heapGet_append_self h _⟩
        | some us =>
          refine ⟨trivial, by omega, ?_, ?_⟩
          · rw [heapGet_set_append_lt h _ _ r hr]
          · rw [heapGet_set_append]
    | some es =>
      cases hu : (heapGet h r).numsOf cfg.columns.resstock_units_mf with
      | none =>
        simp only [hdf, hu]
        cases hs : (heapGet h r).numsOf cfg.columns.resstock_sqft with
        | none =>
          refine ⟨trivial, by omega, heapGet_append_lt h _ r hr, heapGet_append_self h _⟩
        | some ss =>
          refine ⟨trivial, by omega, heapGet_append_lt h _ r hr, heapGet_append_self h _⟩
      | some us =>
        simp only [heapGet_set_append]
        cases hs : ((heapGet h r).setCol cfg.columns.electricity_kwh
            (Column.nums (zip3With (fun m e u => if m then e * u else e) mask es us))).numsOf
            cfg.columns.resstock_sqft with
        | none =>
          refine ⟨trivial, by omega, ?_, ?_⟩
          · rw [heapGet_set_append_lt h _ _ r hr]
          · rw [heapGet_set_append]
        | some ss =>
          cases hu2 : ((heapGet h r).setCol cfg.columns.electricity_kwh
              (Column.nums (zip3With (fun m e u => if m then e * u else e) mask es us))).numsOf
              cfg.columns.resstock_units_mf with
          | none =>
            refine ⟨trivial, by omega, ?_, ?_⟩
            · rw [heapGet_set_append_lt h _ _ r hr]
            · rw [heapGet_set_append]
          | some us2 =>
            simp only [List.set_set]
            refine ⟨trivial, by omega, ?_, ?_⟩
            · rw [heapGet_set_append_lt h _ _ r hr]
            · rw [heapGet_set_append]

/-- Closed instantiation of the C10 theorem on a one-frame heap. -/
theorem C10_no_mutation_witness :
    heapGet (apply_multifamily_adjustments_st demoCfg [demoFrame] 0).1 0
      = heapGet [demoFrame] 0 ∧
    heapGet (apply_multifamily_adjustments_st demoCfg [demoFrame] 0).1
        (apply_multifamily_adjustments_st demoCfg [demoFrame] 0).2
      = apply_multifamily_adjustments demoCfg (heapGet [demoFrame] 0) :=
  ⟨(C10_no_mutation_spec demoCfg [demoFrame] 0 (by decide)).2.2.1,
   (C10_no_mutation_spec demoCfg [demoFrame] 0 (by decide)).2.2.2⟩

end Microgrid
